import Mathlib

/-
Verification of the Datastream provisioning script
`create_connection_profiles_and_datastream.py`.

The script is a linear sequencer of four HTTP operations against the
Datastream control plane:
  1. create_source_connection_profile   (POST, accepts 200 and 409)
  2. create_destination_connection_profile (POST, accepts 200 and 409)
  3. create_stream                      (POST, accepts 200 and 409)
  4. start_stream                       (PATCH, accepts 200 only)
`main` reads a token and a database password interactively, prefixes the
token with "Bearer ", runs the four operations in order gated on each
boolean result, sleeps 60 seconds between stream creation and stream
start, and calls sys.exit(1) on (most) failures.

The embedding below models each Python function as a pure Lean function.
An HTTP response is an input (the environment's reply); each operation
returns the request it sent, the single line it printed, and its boolean
status.  `main` is modelled as a function from the configuration, the two
secrets and the four responses to an event trace (calls, prints, sleeps)
together with the process exit code.
-/

namespace Datastream

/-- A JSON value, as produced by `json.dumps` in the script. -/
inductive Json where
  | str : String → Json
  | nat : Nat → Json
  | obj : List (String × Json) → Json

/-- The `source_profile_config` dictionary from `variables.py`. -/
structure SourceConfig where
  source_profile_name : String
  source_profile_id : String
  source_db_hostname : String
  source_db_port : Nat
  source_db_username : String

deriving instance DecidableEq for SourceConfig

/-- The `destination_profile_config` dictionary from `variables.py`.
The last field is the `storage_bucket_prefix` entry of the dictionary. -/
structure DestinationConfig where
  destination_profile_name : String
  destination_profile_id : String
  storage_bucket_name : String
  storage_bucket_root : String

deriving instance DecidableEq for DestinationConfig

/-- The `stream_config` dictionary from `variables.py`. -/
structure StreamConfig where
  stream_id : String
  stream_name : String

deriving instance DecidableEq for StreamConfig

/-- An HTTP request as assembled by `requests.request(method, url,
headers=headers, data=payload)`. -/
structure HttpRequest where
  method : String
  url : String
  headers : List (String × String)
  data : Json

/-- An HTTP response: the status code and the body text. -/
structure HttpResponse where
  status_code : Nat
  text : String

deriving instance DecidableEq for HttpResponse

/-- Result of one operation: the request it sent, the one line it printed,
and the boolean it returned. -/
structure OpResult where
  request : HttpRequest
  printed : String
  stat : Bool

/-- The POST request assembled by `create_source_connection_profile`
(lines 49-68 of the script): url, JSON payload and headers. -/
def source_profile_request (source_config : SourceConfig)
    (db_password token project location : String) : HttpRequest :=
  let profile_name := source_config.source_profile_name
  let profile_id := source_config.source_profile_id
  let db_hostname := source_config.source_db_hostname
  let db_port := source_config.source_db_port
  let db_username := source_config.source_db_username
  let url := "https://datastream.googleapis.com/v1/projects/" ++ project ++
    "/locations/" ++ location ++ "/connectionProfiles?connectionProfileId=" ++
    profile_id
  let payload := Json.obj [
    ("displayName", Json.str profile_name),
    ("mysqlProfile", Json.obj [
      ("hostname", Json.str db_hostname),
      ("port", Json.nat db_port),
      ("username", Json.str db_username),
      ("password", Json.str db_password)]),
    ("staticServiceIpConnectivity", Json.obj [])]
  let headers := [("Authorization", token), ("Content-Type", "application/json")]
  ⟨"POST", url, headers, payload⟩

/-- `create_source_connection_profile(source_config, db_password, token,
project, location)`, lines 32-78 of the script.  `response` is the reply
the server gives to the POST. -/
def create_source_connection_profile (source_config : SourceConfig)
    (db_password token project location : String)
    (response : HttpResponse) : OpResult :=
  let profile_name := source_config.source_profile_name
  let request := source_profile_request source_config db_password token
    project location
  if response.status_code = 200 then
    ⟨request, "Source connection profile " ++ profile_name ++ " created successfully", true⟩
  else if response.status_code = 409 then
    ⟨request, "Source connection profile " ++ profile_name ++ " already exist", true⟩
  else
    ⟨request, "Issue while creating source connection profile: " ++ response.text, false⟩

/-- The POST request assembled by `create_destination_connection_profile`
(lines 96-110 of the script). -/
def destination_profile_request (project location : String)
    (destination_config : DestinationConfig) (token : String) : HttpRequest :=
  let d_profile_name := destination_config.destination_profile_name
  let d_profile_id := destination_config.destination_profile_id
  let bucket_name := destination_config.storage_bucket_name
  let bucket_root := destination_config.storage_bucket_root
  let url := "https://datastream.clients6.google.com/v1alpha1/projects/" ++
    project ++ "/locations/" ++ location ++
    "/connectionProfiles?connectionProfileId=" ++ d_profile_id
  let payload := Json.obj [
    ("displayName", Json.str d_profile_name),
    ("gcsProfile", Json.obj [
      ("bucketName", Json.str bucket_name),
      ("rootPath", Json.str bucket_root)])]
  let headers := [("Authorization", token), ("Content-Type", "application/json")]
  ⟨"POST", url, headers, payload⟩

/-- `create_destination_connection_profile(project, location,
destination_config, token)`, lines 81-123 of the script. -/
def create_destination_connection_profile (project location : String)
    (destination_config : DestinationConfig) (token : String)
    (response : HttpResponse) : OpResult :=
  let d_profile_id := destination_config.destination_profile_id
  let request := destination_profile_request project location
    destination_config token
  if response.status_code = 200 then
    ⟨request, "Destination connection profile " ++ d_profile_id ++ " created successfully", true⟩
  else if response.status_code = 409 then
    ⟨request, "Destination connection profile " ++ d_profile_id ++ " already exist", true⟩
  else
    ⟨request, "Issue while creating destination connection profile: " ++ response.text, false⟩

/-- The POST request assembled by `create_stream` (lines 136-175 of the
script).  The two profile ids come from the module-level globals
`source_profile_config` and `destination_profile_config`, passed here as
the first two arguments. -/
def stream_request (source_profile_config : SourceConfig)
    (destination_profile_config : DestinationConfig)
    (project location : String) (s_config : StreamConfig)
    (token : String) : HttpRequest :=
  let stream_id := s_config.stream_id
  let name := s_config.stream_name
  let source_connection_id := source_profile_config.source_profile_id
  let destination_connection_id := destination_profile_config.destination_profile_id
  let url := "https://datastream.clients6.google.com/v1alpha1/projects/" ++
    project ++ "/locations/" ++ location ++ "/streams?streamId=" ++ stream_id
  let source_connection_path := "projects/" ++ project ++ "/locations/" ++
    location ++ "/connectionProfiles/" ++ source_connection_id
  let destination_connection_path := "projects/" ++ project ++ "/locations/" ++
    location ++ "/connectionProfiles/" ++ destination_connection_id
  let payload := Json.obj [
    ("displayName", Json.str name),
    ("sourceConfig", Json.obj [
      ("sourceConnectionProfileName", Json.str source_connection_path),
      ("mysqlSourceConfig", Json.obj [
        ("allowlist", Json.obj [("mysqlDatabases", Json.obj [])]),
        ("rejectlist", Json.obj [("mysqlDatabases", Json.obj [])])])]),
    ("destinationConfig", Json.obj [
      ("destinationConnectionProfileName", Json.str destination_connection_path),
      ("gcsDestinationConfig", Json.obj [
        ("path", Json.str ""),
        ("avroFileFormat", Json.obj [])])]),
    ("backfillAll", Json.obj [("mysqlExcludedObjects", Json.obj [])])]
  let headers := [("Authorization", token), ("Content-Type", "application/json")]
  ⟨"POST", url, headers, payload⟩

/-- `create_stream(project, location, s_config, token)`, lines 126-188.
The Python function reads the module-level globals `source_profile_config`
and `destination_profile_config` for the two profile ids; they are passed
here as the first two arguments. -/
def create_stream (source_profile_config : SourceConfig)
    (destination_profile_config : DestinationConfig)
    (project location : String) (s_config : StreamConfig) (token : String)
    (response : HttpResponse) : OpResult :=
  let name := s_config.stream_name
  let request := stream_request source_profile_config
    destination_profile_config project location s_config token
  if response.status_code = 200 then
    ⟨request, "Stream " ++ name ++ " created successfully", true⟩
  else if response.status_code = 409 then
    ⟨request, "Stream " ++ name ++ " already exist", true⟩
  else
    ⟨request, "Issue while creating stream: " ++ response.text, false⟩

/-- The PATCH request assembled by `start_stream` (lines 204-214 of the
script): partial update of the stream resource restricted by
`updateMask=state`, with body consisting of the single field
`state = "RUNNING"`. -/
def start_stream_request (project location token : String)
    (s_config : StreamConfig) : HttpRequest :=
  let stream_id := s_config.stream_id
  let url := "https://datastream.googleapis.com/v1/projects/" ++ project ++
    "/locations/" ++ location ++ "/streams/" ++ stream_id ++ "?updateMask=state"
  let payload := Json.obj [("state", Json.str "RUNNING")]
  let headers := [("Authorization", token), ("Content-Type", "application/json")]
  ⟨"PATCH", url, headers, payload⟩

/-- `start_stream(project, location, token, s_config)`, lines 191-224. -/
def start_stream (project location token : String) (s_config : StreamConfig)
    (response : HttpResponse) : OpResult :=
  let name := s_config.stream_name
  let request := start_stream_request project location token s_config
  if response.status_code = 200 then
    ⟨request, "Stream " ++ name ++ " started successfully", true⟩
  else
    ⟨request, "Issue while starting stream: " ++ response.text, false⟩

/-- Names for the four operations, used to tag call events. -/
inductive OpName where
  | sourceProfile
  | destProfile
  | createStream
  | startStream

deriving instance DecidableEq for OpName

/-- Observable events of a run of `main`: an HTTP call by one of the four
operations, a console print, or a blocking sleep (in seconds). -/
inductive Event where
  | call : OpName → HttpRequest → Event
  | print : String → Event
  | sleep : Nat → Event

/-- The environment: the HTTP response the server would give to each of
the four calls, in order. -/
structure Env where
  r1 : HttpResponse
  r2 : HttpResponse
  r3 : HttpResponse
  r4 : HttpResponse

deriving instance DecidableEq for Env

/-- `main()`, lines 227-264 of the script.  `auth_token_input` and
`source_db_password` are the two `getpass` inputs.  Returns the event
trace and the process exit status (0 when `main` returns normally, 1 when
it calls `sys.exit(1)`).

Faithful to the source: the inner `if create_stream_status:` at line 252
has no `else` branch, so when stream creation fails `main` just returns
and the process exits with status 0. -/
def main (PROJECT_ID GCP_LOCATION : String)
    (source_profile_config : SourceConfig)
    (destination_profile_config : DestinationConfig)
    (stream_config : StreamConfig)
    (auth_token_input source_db_password : String)
    (env : Env) : List Event × Nat :=
  let auth_token := "Bearer " ++ auth_token_input
  let o1 := create_source_connection_profile source_profile_config
    source_db_password auth_token PROJECT_ID GCP_LOCATION env.r1
  let t1 := [Event.call OpName.sourceProfile o1.request, Event.print o1.printed]
  if o1.stat then
    let o2 := create_destination_connection_profile PROJECT_ID GCP_LOCATION
      destination_profile_config auth_token env.r2
    let t2 := t1 ++ [Event.call OpName.destProfile o2.request, Event.print o2.printed]
    if o2.stat then
      let o3 := create_stream source_profile_config destination_profile_config
        PROJECT_ID GCP_LOCATION stream_config auth_token env.r3
      let t3 := t2 ++ [Event.call OpName.createStream o3.request, Event.print o3.printed]
      if o3.stat then
        let o4 := start_stream PROJECT_ID GCP_LOCATION auth_token stream_config env.r4
        let t4 := t3 ++ [Event.sleep 60,
          Event.call OpName.startStream o4.request, Event.print o4.printed]
        if o4.stat then
          (t4 ++ [Event.print "Process Completed!"], 0)
        else
          (t4, 1)
      else
        (t3, 0)
    else
      (t2, 1)
  else
    (t1, 1)

/-- Operation names of the call events of a trace, in order. -/
def callsOf : List Event → List OpName
  | [] => []
  | Event.call op _ :: es => op :: callsOf es
  | _ :: es => callsOf es

/-- Strings printed along a trace, in order. -/
def printsOf : List Event → List String
  | [] => []
  | Event.print s :: es => s :: printsOf es
  | _ :: es => printsOf es

/-- Requests sent along a trace, in order. -/
def requestsOf : List Event → List HttpRequest
  | [] => []
  | Event.call _ r :: es => r :: requestsOf es
  | _ :: es => requestsOf es

/-- Concrete source profile configuration used for witnesses. -/
def demoSource : SourceConfig :=
  ⟨"src-profile", "src-id", "db.example.com", 3306, "dbuser"⟩

/-- Concrete destination profile configuration used for witnesses. -/
def demoDest : DestinationConfig :=
  ⟨"dst-profile", "dst-id", "demo-bucket", "/data"⟩

/-- Concrete stream configuration used for witnesses. -/
def demoStream : StreamConfig := ⟨"stream-id", "demo-stream"⟩

/-- A response with a given status code and empty body. -/
def resp (n : Nat) : HttpResponse := ⟨n, ""⟩

/-- Every start-stream call in the trace comes immediately after a
blocking sleep of 60 seconds. -/
def startGatedBySleep : List Event → Bool
  | [] => true
  | Event.call OpName.startStream _ :: _ => false
  | Event.sleep n :: Event.call OpName.startStream _ :: es =>
      n == 60 && startGatedBySleep es
  | _ :: es => startGatedBySleep es

/-- A request with its headers removed (used to localise where the token
can influence a request). -/
def stripHeaders (q : HttpRequest) : HttpRequest :=
  ⟨q.method, q.url, [], q.data⟩

/-- A request with its body removed (used to localise where the password
can influence a request). -/
def stripData (q : HttpRequest) : HttpRequest :=
  ⟨q.method, q.url, q.headers, Json.obj []⟩

theorem create_source_request_eq (sc : SourceConfig) (pw tok p l : String)
    (r : HttpResponse) :
    (create_source_connection_profile sc pw tok p l r).request =
      source_profile_request sc pw tok p l := by
  unfold create_source_connection_profile
  split
  · rfl
  · split <;> rfl

theorem create_destination_request_eq (p l : String) (dc : DestinationConfig)
    (tok : String) (r : HttpResponse) :
    (create_destination_connection_profile p l dc tok r).request =
      destination_profile_request p l dc tok := by
  unfold create_destination_connection_profile
  split
  · rfl
  · split <;> rfl

theorem create_stream_request_eq (sc : SourceConfig) (dc : DestinationConfig)
    (p l : String) (stc : StreamConfig) (tok : String) (r : HttpResponse) :
    (create_stream sc dc p l stc tok r).request =
      stream_request sc dc p l stc tok := by
  unfold create_stream
  split
  · rfl
  · split <;> rfl

theorem start_stream_request_eq (p l tok : String) (stc : StreamConfig)
    (r : HttpResponse) :
    (start_stream p l tok stc r).request =
      start_stream_request p l tok stc := by
  unfold start_stream
  split <;> rfl

theorem create_source_stat_eq (sc : SourceConfig) (pw tok p l : String)
    (r : HttpResponse) :
    (create_source_connection_profile sc pw tok p l r).stat =
      (r.status_code == 200 || r.status_code == 409) := by
  by_cases h : r.status_code = 200 <;> by_cases h' : r.status_code = 409 <;>
    simp [create_source_connection_profile, h, h']

theorem create_destination_stat_eq (p l : String) (dc : DestinationConfig)
    (tok : String) (r : HttpResponse) :
    (create_destination_connection_profile p l dc tok r).stat =
      (r.status_code == 200 || r.status_code == 409) := by
  by_cases h : r.status_code = 200 <;> by_cases h' : r.status_code = 409 <;>
    simp [create_destination_connection_profile, h, h']

theorem create_stream_stat_eq (sc : SourceConfig) (dc : DestinationConfig)
    (p l : String) (stc : StreamConfig) (tok : String) (r : HttpResponse) :
    (create_stream sc dc p l stc tok r).stat =
      (r.status_code == 200 || r.status_code == 409) := by
  by_cases h : r.status_code = 200 <;> by_cases h' : r.status_code = 409 <;>
    simp [create_stream, h, h']

theorem start_stream_stat_eq (p l tok : String) (stc : StreamConfig)
    (r : HttpResponse) :
    (start_stream p l tok stc r).stat = (r.status_code == 200) := by
  by_cases h : r.status_code = 200 <;> simp [start_stream, h]

/-- Claim C2 counterexample: a 201 response is in the 200 class, yet
`create_source_connection_profile` classifies it as a failure, because the
script compares the status code to 200 exactly. -/
theorem create_source_201_not_success :
    (create_source_connection_profile demoSource "pw" "tok" "proj" "loc"
      ⟨201, ""⟩).stat = false := by decide

/-- Claim C2 (amended): for each of the four operations, a response with
status code exactly 200 yields success=true and prints a confirmation
message naming the resource (profile name, profile id, or stream name). -/
theorem ops_200_success_and_confirmation (sc : SourceConfig)
    (dc : DestinationConfig) (stc : StreamConfig) (pw tok p l : String)
    (r : HttpResponse) (h : r.status_code = 200) :
    ((create_source_connection_profile sc pw tok p l r).stat = true ∧
      (create_source_connection_profile sc pw tok p l r).printed =
        "Source connection profile " ++ sc.source_profile_name ++
          " created successfully") ∧
    ((create_destination_connection_profile p l dc tok r).stat = true ∧
      (create_destination_connection_profile p l dc tok r).printed =
        "Destination connection profile " ++ dc.destination_profile_id ++
          " created successfully") ∧
    ((create_stream sc dc p l stc tok r).stat = true ∧
      (create_stream sc dc p l stc tok r).printed =
        "Stream " ++ stc.stream_name ++ " created successfully") ∧
    ((start_stream p l tok stc r).stat = true ∧
      (start_stream p l tok stc r).printed =
        "Stream " ++ stc.stream_name ++ " started successfully") := by
  simp [create_source_connection_profile, create_destination_connection_profile,
    create_stream, start_stream, h]

/-- Witness for C2 (amended) at a concrete 200 response. -/
theorem ops_200_success_witness :
    (create_source_connection_profile demoSource "pw" "tok" "proj" "loc"
      (resp 200)).stat = true :=
  (ops_200_success_and_confirmation demoSource demoDest demoStream
    "pw" "tok" "proj" "loc" (resp 200) rfl).1.1

/-- Claim C4: a 409 response yields success=true with a confirmation for
the three creation operations, but failure for `start_stream`, which has
no conflict branch. -/
theorem conflict_409_policy (sc : SourceConfig) (dc : DestinationConfig)
    (stc : StreamConfig) (pw tok p l : String) (r : HttpResponse)
    (h : r.status_code = 409) :
    ((create_source_connection_profile sc pw tok p l r).stat = true ∧
      (create_source_connection_profile sc pw tok p l r).printed =
        "Source connection profile " ++ sc.source_profile_name ++
          " already exist") ∧
    ((create_destination_connection_profile p l dc tok r).stat = true ∧
      (create_destination_connection_profile p l dc tok r).printed =
        "Destination connection profile " ++ dc.destination_profile_id ++
          " already exist") ∧
    ((create_stream sc dc p l stc tok r).stat = true ∧
      (create_stream sc dc p l stc tok r).printed =
        "Stream " ++ stc.stream_name ++ " already exist") ∧
    (start_stream p l tok stc r).stat = false := by
  simp [create_source_connection_profile, create_destination_connection_profile,
    create_stream, start_stream, h]

/-- Witness for C4 at a concrete 409 response. -/
theorem conflict_409_policy_witness :
    (create_source_connection_profile demoSource "pw" "tok" "proj" "loc"
        (resp 409)).stat = true ∧
    (start_stream "proj" "loc" "tok" demoStream (resp 409)).stat = false :=
  ⟨(conflict_409_policy demoSource demoDest demoStream "pw" "tok" "proj" "loc"
      (resp 409) rfl).1.1,
   (conflict_409_policy demoSource demoDest demoStream "pw" "tok" "proj" "loc"
      (resp 409) rfl).2.2.2⟩

/-- Claim C5: any response outside the accepted set ({200, 409} for the
three creation operations, {200} for start-stream) yields success=false,
and the printed diagnostic is the fixed issue message followed by the
response body text. -/
theorem rejected_response_policy (sc : SourceConfig) (dc : DestinationConfig)
    (stc : StreamConfig) (pw tok p l : String) (r : HttpResponse)
    (h200 : r.status_code ≠ 200) :
    (r.status_code ≠ 409 →
      (create_source_connection_profile sc pw tok p l r).stat = false ∧
      (create_source_connection_profile sc pw tok p l r).printed =
        "Issue while creating source connection profile: " ++ r.text) ∧
    (r.status_code ≠ 409 →
      (create_destination_connection_profile p l dc tok r).stat = false ∧
      (create_destination_connection_profile p l dc tok r).printed =
        "Issue while creating destination connection profile: " ++ r.text) ∧
    (r.status_code ≠ 409 →
      (create_stream sc dc p l stc tok r).stat = false ∧
      (create_stream sc dc p l stc tok r).printed =
        "Issue while creating stream: " ++ r.text) ∧
    ((start_stream p l tok stc r).stat = false ∧
      (start_stream p l tok stc r).printed =
        "Issue while starting stream: " ++ r.text) := by
  refine ⟨fun h409 => ?_, fun h409 => ?_, fun h409 => ?_, ?_⟩
  · simp [create_source_connection_profile, h200, h409]
  · simp [create_destination_connection_profile, h200, h409]
  · simp [create_stream, h200, h409]
  · simp [start_stream, h200]

/-- Witness for C5 at a concrete 500 response with body "boom". -/
theorem rejected_response_policy_witness :
    (create_source_connection_profile demoSource "pw" "tok" "proj" "loc"
        ⟨500, "boom"⟩).printed =
      "Issue while creating source connection profile: " ++ "boom" :=
  ((rejected_response_policy demoSource demoDest demoStream "pw" "tok"
      "proj" "loc" ⟨500, "boom"⟩ (by decide)).1 (by decide)).2

/-- Claim C7: `start_stream` always sends a PATCH request to the stream
resource url with `updateMask=state`, whose body is exactly the single
field `state = "RUNNING"`. -/
theorem start_stream_patch_state_only (p l tok : String) (stc : StreamConfig)
    (r : HttpResponse) :
    (start_stream p l tok stc r).request.method = "PATCH" ∧
    (start_stream p l tok stc r).request.url =
      "https://datastream.googleapis.com/v1/projects/" ++ p ++
        "/locations/" ++ l ++ "/streams/" ++ stc.stream_id ++
        "?updateMask=state" ∧
    (start_stream p l tok stc r).request.data =
      Json.obj [("state", Json.str "RUNNING")] := by
  simp [start_stream_request_eq, start_stream_request]

/-- Claim C3: the sequencer short-circuits.  If operation 1 fails, only
operation 1 was called; if operation 2 fails, only operations 1 and 2
were called; if operation 3 fails, only operations 1, 2 and 3 were
called. -/
theorem sequencer_short_circuits (p l : String) (sc : SourceConfig)
    (dc : DestinationConfig) (stc : StreamConfig) (tok pw : String)
    (env : Env) :
    ((env.r1.status_code == 200 || env.r1.status_code == 409) = false →
      callsOf (main p l sc dc stc tok pw env).1 = [OpName.sourceProfile]) ∧
    ((env.r1.status_code == 200 || env.r1.status_code == 409) = true →
      (env.r2.status_code == 200 || env.r2.status_code == 409) = false →
      callsOf (main p l sc dc stc tok pw env).1 =
        [OpName.sourceProfile, OpName.destProfile]) ∧
    ((env.r1.status_code == 200 || env.r1.status_code == 409) = true →
      (env.r2.status_code == 200 || env.r2.status_code == 409) = true →
      (env.r3.status_code == 200 || env.r3.status_code == 409) = false →
      callsOf (main p l sc dc stc tok pw env).1 =
        [OpName.sourceProfile, OpName.destProfile, OpName.createStream]) := by
  refine ⟨fun h1 => ?_, fun h1 h2 => ?_, fun h1 h2 h3 => ?_⟩
  · simp [main, create_source_stat_eq, h1, callsOf]
  · simp [main, create_source_stat_eq, create_destination_stat_eq,
      h1, h2, callsOf]
  · simp [main, create_source_stat_eq, create_destination_stat_eq,
      create_stream_stat_eq, h1, h2, h3, callsOf]

/-- Witness for C3 at concrete environments in which the first, second
and third operation respectively is the first to fail. -/
theorem sequencer_short_circuits_witness :
    callsOf (main "proj" "loc" demoSource demoDest demoStream "tok" "pw"
        ⟨resp 500, resp 200, resp 200, resp 200⟩).1 =
      [OpName.sourceProfile] ∧
    callsOf (main "proj" "loc" demoSource demoDest demoStream "tok" "pw"
        ⟨resp 200, resp 500, resp 200, resp 200⟩).1 =
      [OpName.sourceProfile, OpName.destProfile] ∧
    callsOf (main "proj" "loc" demoSource demoDest demoStream "tok" "pw"
        ⟨resp 409, resp 200, resp 500, resp 200⟩).1 =
      [OpName.sourceProfile, OpName.destProfile, OpName.createStream] :=
  ⟨(sequencer_short_circuits "proj" "loc" demoSource demoDest demoStream
      "tok" "pw" ⟨resp 500, resp 200, resp 200, resp 200⟩).1 (by decide),
   (sequencer_short_circuits "proj" "loc" demoSource demoDest demoStream
      "tok" "pw" ⟨resp 200, resp 500, resp 200, resp 200⟩).2.1 (by decide)
      (by decide),
   (sequencer_short_circuits "proj" "loc" demoSource demoDest demoStream
      "tok" "pw" ⟨resp 409, resp 200, resp 500, resp 200⟩).2.2 (by decide)
      (by decide) (by decide)⟩

/-- Claim C6: in every run in which the first three operations succeed, a
start-stream call is made and every start-stream call in the trace comes
immediately after a blocking sleep of 60 seconds; the start-stream
request is never sent before that wait. -/
theorem fixed_wait_before_start (p l : String) (sc : SourceConfig)
    (dc : DestinationConfig) (stc : StreamConfig) (tok pw : String)
    (env : Env)
    (h1 : (env.r1.status_code == 200 || env.r1.status_code == 409) = true)
    (h2 : (env.r2.status_code == 200 || env.r2.status_code == 409) = true)
    (h3 : (env.r3.status_code == 200 || env.r3.status_code == 409) = true) :
    startGatedBySleep (main p l sc dc stc tok pw env).1 = true ∧
    OpName.startStream ∈ callsOf (main p l sc dc stc tok pw env).1 := by
  by_cases h4 : env.r4.status_code = 200 <;>
    simp [main, create_source_stat_eq, create_destination_stat_eq,
      create_stream_stat_eq, start_stream_stat_eq, h1, h2, h3, h4,
      startGatedBySleep, callsOf]

/-- Witness for C6 at a concrete all-success environment. -/
theorem fixed_wait_before_start_witness :
    startGatedBySleep (main "proj" "loc" demoSource demoDest demoStream
        "tok" "pw" ⟨resp 200, resp 200, resp 200, resp 200⟩).1 = true ∧
    OpName.startStream ∈ callsOf (main "proj" "loc" demoSource demoDest
        demoStream "tok" "pw" ⟨resp 200, resp 200, resp 200, resp 200⟩).1 :=
  fixed_wait_before_start "proj" "loc" demoSource demoDest demoStream
    "tok" "pw" ⟨resp 200, resp 200, resp 200, resp 200⟩
    (by decide) (by decide) (by decide)

/-- Claim C1 (code behaviour at the failing input): when the two profile
creations return 200 but stream creation returns 500, `main` prints the
response body and never calls start-stream, but the process exits with
status 0, not 1: the `if create_stream_status:` at line 252 of the script
has no `else` branch, so `main` just returns. -/
theorem create_stream_failure_exits_zero :
    (main "demo-proj" "us-central1" demoSource demoDest demoStream "tok" "pw"
        ⟨resp 200, resp 200,
          ⟨500, "\x7b\"error\":\"invalid argument\"\x7d"⟩, resp 200⟩).2 = 0 ∧
    ("Issue while creating stream: " ++
        "\x7b\"error\":\"invalid argument\"\x7d") ∈
      printsOf (main "demo-proj" "us-central1" demoSource demoDest demoStream
        "tok" "pw" ⟨resp 200, resp 200,
          ⟨500, "\x7b\"error\":\"invalid argument\"\x7d"⟩, resp 200⟩).1 ∧
    OpName.startStream ∉ callsOf (main "demo-proj" "us-central1" demoSource
      demoDest demoStream "tok" "pw" ⟨resp 200, resp 200,
        ⟨500, "\x7b\"error\":\"invalid argument\"\x7d"⟩, resp 200⟩).1 := by
  refine ⟨rfl, ?_, by decide⟩
  simp [main, printsOf, create_source_stat_eq, create_destination_stat_eq,
    create_stream_stat_eq, create_stream]

/-- Claim C8: the create-stream request is built solely from configured
identifiers.  Whenever the two profile creations succeed, the request
sent by the create-stream call is `stream_request` of the configuration
records and token alone (no value returned by operations 1 or 2 occurs in
it), and its profile references are the resource paths formed from the
configured profile ids. -/
theorem no_dataflow_between_steps (p l : String) (sc : SourceConfig)
    (dc : DestinationConfig) (stc : StreamConfig) (tok pw : String)
    (env : Env)
    (h1 : (env.r1.status_code == 200 || env.r1.status_code == 409) = true)
    (h2 : (env.r2.status_code == 200 || env.r2.status_code == 409) = true) :
    Event.call OpName.createStream
        (stream_request sc dc p l stc ("Bearer " ++ tok)) ∈
      (main p l sc dc stc tok pw env).1 ∧
    (stream_request sc dc p l stc ("Bearer " ++ tok)).data =
      Json.obj [
        ("displayName", Json.str stc.stream_name),
        ("sourceConfig", Json.obj [
          ("sourceConnectionProfileName", Json.str ("projects/" ++ p ++
            "/locations/" ++ l ++ "/connectionProfiles/" ++
            sc.source_profile_id)),
          ("mysqlSourceConfig", Json.obj [
            ("allowlist", Json.obj [("mysqlDatabases", Json.obj [])]),
            ("rejectlist", Json.obj [("mysqlDatabases", Json.obj [])])])]),
        ("destinationConfig", Json.obj [
          ("destinationConnectionProfileName", Json.str ("projects/" ++ p ++
            "/locations/" ++ l ++ "/connectionProfiles/" ++
            dc.destination_profile_id)),
          ("gcsDestinationConfig", Json.obj [
            ("path", Json.str ""),
            ("avroFileFormat", Json.obj [])])]),
        ("backfillAll", Json.obj [("mysqlExcludedObjects", Json.obj [])])] := by
  refine ⟨?_, rfl⟩
  by_cases h3 : env.r3.status_code = 200
  · by_cases h4 : env.r4.status_code = 200 <;>
      simp [main, create_source_stat_eq, create_destination_stat_eq,
        create_stream_stat_eq, start_stream_stat_eq,
        create_stream_request_eq, h1, h2, h3, h4]
  · by_cases h3' : env.r3.status_code = 409
    · by_cases h4 : env.r4.status_code = 200 <;>
        simp [main, create_source_stat_eq, create_destination_stat_eq,
          create_stream_stat_eq, start_stream_stat_eq,
          create_stream_request_eq, h1, h2, h3, h3', h4]
    · simp [main, create_source_stat_eq, create_destination_stat_eq,
        create_stream_stat_eq, create_stream_request_eq, h1, h2, h3, h3']

/-- Witness for C8 at a concrete environment where both profile creations
return 200. -/
theorem no_dataflow_between_steps_witness :
    Event.call OpName.createStream
        (stream_request demoSource demoDest "proj" "loc" demoStream
          ("Bearer " ++ "tok")) ∈
      (main "proj" "loc" demoSource demoDest demoStream "tok" "pw"
        ⟨resp 200, resp 200, resp 200, resp 200⟩).1 :=
  (no_dataflow_between_steps "proj" "loc" demoSource demoDest demoStream
    "tok" "pw" ⟨resp 200, resp 200, resp 200, resp 200⟩
    (by decide) (by decide)).1

theorem create_source_printed_canon (sc : SourceConfig) (pw tok p l : String)
    (r : HttpResponse) :
    (create_source_connection_profile sc pw tok p l r).printed =
      (create_source_connection_profile sc "" "" p l r).printed := by
  by_cases h : r.status_code = 200 <;> by_cases h' : r.status_code = 409 <;>
    simp [create_source_connection_profile, h, h']

theorem create_destination_printed_canon (p l : String)
    (dc : DestinationConfig) (tok : String) (r : HttpResponse) :
    (create_destination_connection_profile p l dc tok r).printed =
      (create_destination_connection_profile p l dc "" r).printed := by
  by_cases h : r.status_code = 200 <;> by_cases h' : r.status_code = 409 <;>
    simp [create_destination_connection_profile, h, h']

theorem create_stream_printed_canon (sc : SourceConfig)
    (dc : DestinationConfig) (p l : String) (stc : StreamConfig)
    (tok : String) (r : HttpResponse) :
    (create_stream sc dc p l stc tok r).printed =
      (create_stream sc dc p l stc "" r).printed := by
  by_cases h : r.status_code = 200 <;> by_cases h' : r.status_code = 409 <;>
    simp [create_stream, h, h']

theorem start_stream_printed_canon (p l tok : String) (stc : StreamConfig)
    (r : HttpResponse) :
    (start_stream p l tok stc r).printed =
      (start_stream p l "" stc r).printed := by
  by_cases h : r.status_code = 200 <;> simp [start_stream, h]

theorem source_request_headers (sc : SourceConfig) (pw tok p l : String) :
    (source_profile_request sc pw tok p l).headers =
      [("Authorization", tok), ("Content-Type", "application/json")] := rfl

theorem destination_request_headers (p l : String) (dc : DestinationConfig)
    (tok : String) :
    (destination_profile_request p l dc tok).headers =
      [("Authorization", tok), ("Content-Type", "application/json")] := rfl

theorem stream_request_headers (sc : SourceConfig) (dc : DestinationConfig)
    (p l : String) (stc : StreamConfig) (tok : String) :
    (stream_request sc dc p l stc tok).headers =
      [("Authorization", tok), ("Content-Type", "application/json")] := rfl

theorem start_request_headers (p l tok : String) (stc : StreamConfig) :
    (start_stream_request p l tok stc).headers =
      [("Authorization", tok), ("Content-Type", "application/json")] := rfl

theorem stripHeaders_source_canon (sc : SourceConfig) (pw tok p l : String) :
    stripHeaders (source_profile_request sc pw tok p l) =
      stripHeaders (source_profile_request sc pw "" p l) := rfl

theorem stripHeaders_dest_canon (p l : String) (dc : DestinationConfig)
    (tok : String) :
    stripHeaders (destination_profile_request p l dc tok) =
      stripHeaders (destination_profile_request p l dc "") := rfl

theorem stripHeaders_stream_canon (sc : SourceConfig) (dc : DestinationConfig)
    (p l : String) (stc : StreamConfig) (tok : String) :
    stripHeaders (stream_request sc dc p l stc tok) =
      stripHeaders (stream_request sc dc p l stc "") := rfl

theorem stripHeaders_start_canon (p l tok : String) (stc : StreamConfig) :
    stripHeaders (start_stream_request p l tok stc) =
      stripHeaders (start_stream_request p l "" stc) := rfl

theorem stripData_source_canon (sc : SourceConfig) (pw tok p l : String) :
    stripData (source_profile_request sc pw tok p l) =
      stripData (source_profile_request sc "" tok p l) := rfl

/-- Claim C9 counterexample: the script prints failed responses verbatim,
so a run in which the server echoes the typed token in a failure body
prints a string containing the token. -/
theorem token_echoed_in_diagnostic :
    "sekret-token".toList <:+:
      ("Issue while creating source connection profile: " ++
        "sekret-token").toList ∧
    ("Issue while creating source connection profile: " ++ "sekret-token") ∈
      printsOf (main "proj" "loc" demoSource demoDest demoStream
        "sekret-token" "pw"
        ⟨⟨500, "sekret-token"⟩, resp 200, resp 200, resp 200⟩).1 := by
  decide

/-- Claim C9 (amended): the console output of a run is independent of the
entered token and password; every request carries exactly the
Authorization and Content-Type headers with the bearer token as the
Authorization value; the token influences the requests only through
their headers, and the password only through the body of the first
(source-profile) request. -/
theorem credentials_scoped (p l : String) (sc : SourceConfig)
    (dc : DestinationConfig) (stc : StreamConfig)
    (tok tok' pw pw' : String) (env : Env) :
    printsOf (main p l sc dc stc tok pw env).1 =
      printsOf (main p l sc dc stc tok' pw' env).1 ∧
    (requestsOf (main p l sc dc stc tok pw env).1).map HttpRequest.headers =
      List.replicate (requestsOf (main p l sc dc stc tok pw env).1).length
        [("Authorization", "Bearer " ++ tok),
          ("Content-Type", "application/json")] ∧
    (requestsOf (main p l sc dc stc tok pw env).1).map stripHeaders =
      (requestsOf (main p l sc dc stc tok' pw env).1).map stripHeaders ∧
    (requestsOf (main p l sc dc stc tok pw env).1).map stripData =
      (requestsOf (main p l sc dc stc tok pw' env).1).map stripData ∧
    (requestsOf (main p l sc dc stc tok pw env).1).tail =
      (requestsOf (main p l sc dc stc tok pw' env).1).tail := by
  refine ⟨?_, ?_, ?_, ?_, ?_⟩ <;>
  · cases hb1 : (env.r1.status_code == 200 || env.r1.status_code == 409) <;>
    cases hb2 : (env.r2.status_code == 200 || env.r2.status_code == 409) <;>
    cases hb3 : (env.r3.status_code == 200 || env.r3.status_code == 409) <;>
    cases hb4 : (env.r4.status_code == 200) <;>
      simp [main, create_source_stat_eq, create_destination_stat_eq,
        create_stream_stat_eq, start_stream_stat_eq, hb1, hb2, hb3, hb4,
        printsOf, requestsOf, create_source_request_eq,
        create_destination_request_eq, create_stream_request_eq,
        start_stream_request_eq, create_source_printed_canon,
        create_destination_printed_canon, create_stream_printed_canon,
        start_stream_printed_canon, source_request_headers,
        destination_request_headers, stream_request_headers,
        start_request_headers, stripHeaders_source_canon,
        stripHeaders_dest_canon, stripHeaders_stream_canon,
        stripHeaders_start_canon, stripData_source_canon, List.replicate]

/-- Claim C10: every request sent by `main` carries the Authorization
header whose value is exactly "Bearer " followed by the typed token, and
that value is never the raw typed token itself. -/
theorem auth_header_is_bearer_of_token (p l : String) (sc : SourceConfig)
    (dc : DestinationConfig) (stc : StreamConfig) (tok pw : String)
    (env : Env) :
    (requestsOf (main p l sc dc stc tok pw env).1).map HttpRequest.headers =
      List.replicate (requestsOf (main p l sc dc stc tok pw env).1).length
        [("Authorization", "Bearer " ++ tok),
          ("Content-Type", "application/json")] ∧
    "Bearer " ++ tok ≠ tok := by
  constructor
  · cases hb1 : (env.r1.status_code == 200 || env.r1.status_code == 409) <;>
    cases hb2 : (env.r2.status_code == 200 || env.r2.status_code == 409) <;>
    cases hb3 : (env.r3.status_code == 200 || env.r3.status_code == 409) <;>
    cases hb4 : (env.r4.status_code == 200) <;>
      simp [main, create_source_stat_eq, create_destination_stat_eq,
        create_stream_stat_eq, start_stream_stat_eq, hb1, hb2, hb3, hb4,
        requestsOf, create_source_request_eq, create_destination_request_eq,
        create_stream_request_eq, start_stream_request_eq,
        source_request_headers, destination_request_headers,
        stream_request_headers, start_request_headers, List.replicate]
  · intro h
    have hlen := congrArg String.length h
    rw [String.length_append] at hlen
    have h7 : "Bearer ".length = 7 := rfl
    rw [h7] at hlen
    omega

end Datastream
